import Mathlib

/-!
Shallow embedding of the sale-transaction core of the pharmacy backend:
the Drug and Sale data model (src/models/Drug.js, src/models/Sale.js),
the sale-creation handler (src/Controllers/saleController.js, createSale),
the drug-creation handler (src/Controllers/drugController.js, createDrug)
and the low-stock query (Drug.getLowStock).

Modelling conventions:
- JavaScript numbers are modelled as `Int` (client-supplied quantities may
  be negative; money amounts only undergo addition, multiplication,
  subtraction and comparison in the verified code paths, where integer and
  float semantics agree). The one division in the source, the profit
  margin percentage, is modelled as exact division in `Rat`.
- Mongo documents live in in-memory lists; `findOne`/`find` become list
  searches, `findByIdAndUpdate` with `$inc` becomes a map over the list.
- `Document.save()` is modelled in Mongoose's documented order: schema
  validation first, then the user pre-save hook, then the write.
- Fields irrelevant to the verified claims (timestamps, the analytics
  fields dayOfWeek/month/year/hour set from `createdAt`, the text of error
  messages) are omitted; error responses are modelled as constructors.
-/

namespace Pharmacy

/-- Drug batch record, from the drugSchema in src/models/Drug.js. -/
structure Drug where
  id : Nat
  name : String
  category : String
  batchNo : String
  quantity : Int
  price : Int
  costPrice : Int
  expiryDate : Int
  supplier : String
  minStockLevel : Int
  isActive : Bool
  pharmacy : Nat
  createdBy : Nat
deriving DecidableEq

/-- Payment methods, from the paymentMethod enum of saleSchema. -/
inductive PaymentMethod where
  | cash
  | card
  | mobileMoney
deriving DecidableEq

/-- Sale status enum of saleSchema. -/
inductive SaleStatus where
  | completed
  | cancelled
  | refunded
deriving DecidableEq

/-- One sale line item, from saleItemSchema in src/models/Sale.js.
`costPrice` is optional in the schema; `profit` defaults to 0. -/
structure SaleItem where
  drug : Nat
  drugName : String
  batchNo : String
  category : String
  quantity : Int
  unitPrice : Int
  totalPrice : Int
  costPrice : Option Int
  profit : Int
deriving DecidableEq

/-- Sale transaction record, from saleSchema in src/models/Sale.js.
`saleNumber` is absent until the pre-save hook assigns it; `totalCost`
is only set by the hook when some item carries a truthy costPrice. -/
structure Sale where
  saleNumber : Option String
  items : List SaleItem
  totalAmount : Int
  totalItems : Int
  totalCost : Option Int
  totalProfit : Int
  profitMargin : Rat
  paymentMethod : PaymentMethod
  customerName : String
  customerPhone : String
  soldBy : Nat
  status : SaleStatus
  pharmacy : Option Nat
deriving DecidableEq

/-- The two Mongo collections the sale core touches. -/
structure DB where
  drugs : List Drug
  sales : List Sale
deriving DecidableEq

/-- Authenticated caller (req.user): id and optional pharmacy reference. -/
structure User where
  id : Nat
  pharmacy : Option Nat
deriving DecidableEq

/-- One requested basket line from the request body. -/
structure ReqItem where
  drugId : Nat
  quantity : Int
deriving DecidableEq

/-- Sale-creation request body. -/
structure SaleRequest where
  items : List ReqItem
  paymentMethod : Option PaymentMethod
  customerName : Option String
  customerPhone : Option String
deriving DecidableEq

/-- Outcome of the createSale handler, by response shape. -/
inductive SaleResponse where
  | emptySale
  | drugNotFound (drugId : Nat)
  | insufficientStock (drugName : String) (available requested : Int)
  | serverError
  | created (sale : Sale)
deriving DecidableEq

/-- Validation failures (404 not-found / 400 insufficient-stock) raised in
the createSale validation loop. -/
def SaleResponse.isValidationFailure : SaleResponse → Bool
  | .drugNotFound _ => true
  | .insufficientStock _ _ _ => true
  | _ => false

/-- True exactly on the 201 created response. -/
def SaleResponse.isCreated : SaleResponse → Bool
  | .created _ => true
  | _ => false

/-- The sale carried by a created response, if any. -/
def SaleResponse.createdSale : SaleResponse → Option Sale
  | .created s => some s
  | _ => none

/-- Tenancy resolution `req.user.pharmacy || req.user._id` used by every
handler. -/
def resolvePharmacy (u : User) : Nat :=
  u.pharmacy.getD u.id

/-- Drug.findOne({_id, pharmacy, isActive: true}) from the createSale
validation loop. -/
def drugFindOne (drugs : List Drug) (pid : Nat) (drugId : Nat) : Option Drug :=
  drugs.find? (fun d => d.id == drugId && d.pharmacy == pid && d.isActive)

/-- Drug.findByIdAndUpdate(id, { $inc: { quantity: -q } }): an unconditional
decrement of the matching document's quantity (no pharmacy or stock guard). -/
def decrementQuantity (drugs : List Drug) (drugId : Nat) (q : Int) : List Drug :=
  drugs.map (fun d => if d.id == drugId then { d with quantity := d.quantity - q } else d)

/-- The decrement loop of createSale (lines 73-81): one `$inc` per
requested line, applied to whatever state the store is in. -/
def applyDecrements (drugs : List Drug) (items : List ReqItem) : List Drug :=
  items.foldl (fun ds it => decrementQuantity ds it.drugId it.quantity) drugs

/-- Drug#updateStock from src/models/Drug.js: the guarded decrement the
model exposes (throws on insufficient stock). The createSale handler does
not call it; it issues raw `$inc` updates instead. -/
def updateStock (d : Drug) (quantitySold : Int) : Option Drug :=
  if d.quantity < quantitySold then none
  else some { d with quantity := d.quantity - quantitySold }

/-- The sale line the handler pushes for a validated request line
(createSale lines 49-57): price data comes from the found Drug, and no
costPrice is supplied, so profit keeps its schema default 0. -/
def mkSaleItem (d : Drug) (q : Int) : SaleItem :=
  { drug := d.id
    drugName := d.name
    batchNo := d.batchNo
    category := d.category
    quantity := q
    unitPrice := d.price
    totalPrice := d.price * q
    costPrice := none
    profit := 0 }

/-- The validation loop of createSale (lines 24-58): every line is looked
up against the same un-decremented store; the first failing line aborts
with its error, otherwise the prepared sale items are returned. -/
def validateItems (drugs : List Drug) (pid : Nat) :
    List ReqItem → Except SaleResponse (List SaleItem)
  | [] => .ok []
  | it :: rest =>
    match drugFindOne drugs pid it.drugId with
    | none => .error (.drugNotFound it.drugId)
    | some d =>
      if d.quantity < it.quantity then
        .error (.insufficientStock d.name d.quantity it.quantity)
      else
        match validateItems drugs pid rest with
        | .error e => .error e
        | .ok tail => .ok (mkSaleItem d it.quantity :: tail)

/-- Validators declared on saleItemSchema that can reject a document:
quantity min 1, unitPrice min 0, totalPrice min 0, costPrice min 0 when
present, and the required (hence non-empty) strings drugName and batchNo. -/
def validSaleItem (it : SaleItem) : Bool :=
  decide (1 ≤ it.quantity) && decide (0 ≤ it.unitPrice) && decide (0 ≤ it.totalPrice) &&
  (match it.costPrice with | some c => decide (0 ≤ c) | none => true) &&
  !(it.drugName == "") && !(it.batchNo == "")

/-- Validators on saleSchema itself: every embedded item valid,
totalAmount min 0, totalItems min 1, totalCost min 0 when present. -/
def validSale (s : Sale) : Bool :=
  s.items.all validSaleItem && decide (0 ≤ s.totalAmount) && decide (1 ≤ s.totalItems) &&
  (match s.totalCost with | some c => decide (0 ≤ c) | none => true)

/-- String.prototype.padStart: left-pad with `c` up to length `n`
(never truncates). -/
def padStart (n : Nat) (c : Char) (s : String) : String :=
  String.mk (List.replicate (n - s.length) c) ++ s

/-- The sale-number format of the pre-save hook (Sale.js line 146):
`SL` + String(count + 1).padStart(4, '0'). -/
def genSaleNumber (count : Nat) : String :=
  "SL" ++ padStart 4 '0' (Nat.repr (count + 1))

/-- Profit assignment of the pre-save hook's forEach (Sale.js lines
155-161): only an item with a truthy costPrice gets its profit set. -/
def hookItemProfit (it : SaleItem) : SaleItem :=
  match it.costPrice with
  | some c => if c = 0 then it else { it with profit := it.totalPrice - c * it.quantity }
  | none => it

/-- Cost contribution of one item to the hook's running totalCost:
zero unless costPrice is truthy. -/
def hookItemCost (it : SaleItem) : Int :=
  match it.costPrice with
  | some c => if c = 0 then 0 else c * it.quantity
  | none => 0

/-- The user pre-save hook of saleSchema (Sale.js lines 141-182), run
after schema validation: assign a sale number from the current document
count when none is present, recompute both totals from the items, set
per-item profit and the aggregate cost/profit/margin when cost data is
present. `count` is `countDocuments()`, the number of persisted sales.
(When totalAmount is 0 and totalCost > 0 the JS division yields -Infinity
while Rat division yields 0; no verified claim touches that corner.) -/
def salePreSave (count : Nat) (s : Sale) : Sale :=
  let sn : Option String :=
    match s.saleNumber with
    | none => some (genSaleNumber count)
    | some n => some n
  let totalItems : Int := (s.items.map SaleItem.quantity).sum
  let totalAmount : Int := (s.items.map SaleItem.totalPrice).sum
  let items : List SaleItem := s.items.map hookItemProfit
  let totalCost : Int := (s.items.map hookItemCost).sum
  if 0 < totalCost then
    { s with
      saleNumber := sn, items := items, totalItems := totalItems, totalAmount := totalAmount
      totalCost := some totalCost
      totalProfit := totalAmount - totalCost
      profitMargin := ((totalAmount - totalCost : Int) : Rat) / ((totalAmount : Int) : Rat) * 100 }
  else
    { s with saleNumber := sn, items := items, totalItems := totalItems, totalAmount := totalAmount }

/-- sale.save(): schema validation on the document as supplied, then the
pre-save hook, then the insert. Returns none (a thrown ValidationError)
when a validator rejects; the caller's catch block turns that into a 500. -/
def saveSale (db : DB) (s : Sale) : Option (Sale × DB) :=
  if validSale s then
    let s' := salePreSave db.sales.length s
    some (s', { db with sales := db.sales ++ [s'] })
  else
    none

/-- The Sale document the handler constructs (createSale lines 61-70):
no sale number yet, accumulated totals, payment method defaulting to
cash, empty-string customer fields, schema defaults elsewhere. -/
def mkSale (u : User) (pid : Nat) (req : SaleRequest) (saleItems : List SaleItem) : Sale :=
  { saleNumber := none
    items := saleItems
    totalAmount := (saleItems.map SaleItem.totalPrice).sum
    totalItems := (saleItems.map SaleItem.quantity).sum
    totalCost := none
    totalProfit := 0
    profitMargin := 0
    paymentMethod := req.paymentMethod.getD .cash
    customerName := req.customerName.getD ""
    customerPhone := req.customerPhone.getD ""
    soldBy := u.id
    status := .completed
    pharmacy := some pid }

/-- The createSale handler of src/Controllers/saleController.js:
reject an empty basket; validate every line (existence scoped to the
caller's pharmacy and active drugs, stock sufficiency) against the
current store; then apply one unconditional `$inc` decrement per line
and finally save the Sale. A save failure is caught after the
decrements have been applied, leaving them in place. -/
def createSale (db : DB) (u : User) (req : SaleRequest) : SaleResponse × DB :=
  if req.items.isEmpty then
    (.emptySale, db)
  else
    match validateItems db.drugs (resolvePharmacy u) req.items with
    | .error e => (e, db)
    | .ok saleItems =>
      match saveSale { db with drugs := applyDecrements db.drugs req.items }
          (mkSale u (resolvePharmacy u) req saleItems) with
      | none => (.serverError, { db with drugs := applyDecrements db.drugs req.items })
      | some (s', db2) => (.created s', db2)

/-- Request attributes for drug creation, after the route-level
express-validator middleware has accepted the body (so the numeric fields
parse). costPrice and minStockLevel are optional in the body. -/
structure DrugAttrs where
  name : String
  category : String
  batchNo : String
  quantity : Int
  price : Int
  costPrice : Option Int
  expiryDate : Int
  supplier : String
  minStockLevel : Option Int
deriving DecidableEq

/-- Outcome of the createDrug handler, by response shape. -/
inductive CreateDrugResult where
  | duplicateBatch
  | expiryNotInFuture
  | created (d : Drug)
deriving DecidableEq

/-- True exactly on the two 400 client-error responses of createDrug. -/
def CreateDrugResult.isClientError : CreateDrugResult → Bool
  | .created _ => false
  | _ => true

/-- Whitespace trim applied by the handlers (String.prototype.trim),
modelled over the character list so it evaluates. -/
def strTrim (s : String) : String :=
  String.mk (((s.data.dropWhile Char.isWhitespace).reverse.dropWhile Char.isWhitespace).reverse)

/-- The Drug document createDrug constructs for the caller's pharmacy.
`costPrice || price` and `parseInt(minStockLevel) || 10` make a zero or
absent value fall back to the price and to 10 respectively. -/
def mkDrug (u : User) (a : DrugAttrs) (newId : Nat) : Drug :=
  { id := newId
    name := strTrim a.name
    category := strTrim a.category
    batchNo := strTrim a.batchNo
    quantity := a.quantity
    price := a.price
    costPrice := match a.costPrice with
      | some c => if c = 0 then a.price else c
      | none => a.price
    expiryDate := a.expiryDate
    supplier := strTrim a.supplier
    minStockLevel := match a.minStockLevel with
      | some m => if m = 0 then 10 else m
      | none => 10
    isActive := true
    pharmacy := resolvePharmacy u
    createdBy := u.id }

/-- The createDrug handler of src/Controllers/drugController.js: reject
when a drug with the same trimmed batch number already exists for the
caller's pharmacy (no isActive filter on this check), reject when the
expiry date is not strictly after `now`, otherwise insert the new record. -/
def createDrug (db : DB) (u : User) (now : Int) (a : DrugAttrs) (newId : Nat) :
    CreateDrugResult × DB :=
  match db.drugs.find?
      (fun d => d.batchNo == strTrim a.batchNo && d.pharmacy == resolvePharmacy u) with
  | some _ => (.duplicateBatch, db)
  | none =>
    if a.expiryDate ≤ now then
      (.expiryNotInFuture, db)
    else
      (.created (mkDrug u a newId), { db with drugs := db.drugs ++ [mkDrug u a newId] })

/-- Drug.getLowStock from src/models/Drug.js: the stored query filters on
the fixed literal `quantity: { $lte: 10 }`, the pharmacy and the active
flag. (The alert endpoint getLowStockDrugs only adds a sort, which does
not change membership.) -/
def getLowStock (drugs : List Drug) (pid : Nat) : List Drug :=
  drugs.filter (fun d => d.pharmacy == pid && decide (d.quantity ≤ 10) && d.isActive)

/-- Modelled from the spec (section 3, "low-stock = quantity ≤ minimum
stock threshold"): the low-stock filter the claim describes, comparing
each drug's quantity against its own minStockLevel. Kept separate from
`getLowStock`, which embeds the source query, for comparison. -/
def lowStockPerSpec (drugs : List Drug) (pid : Nat) : List Drug :=
  drugs.filter (fun d => d.pharmacy == pid && decide (d.quantity ≤ d.minStockLevel) && d.isActive)

/-!
Interleaving model of the sale-number generation race (Sale.js lines
143-147). The pre-save hook performs two separate storage operations:
a `countDocuments()` read, then the insert that makes the new sale
durable. Two concurrent save calls are modelled as two such
read/commit pairs acting on a shared persisted-sales counter, under an
arbitrary interleaving of their four operations.
-/

/-- Shared-storage state seen by two concurrent sale saves: the number of
persisted sales, each request's remembered count read, and each request's
assigned sale number. -/
structure GenState where
  persisted : Nat
  readCount0 : Option Nat
  readCount1 : Option Nat
  assigned0 : Option String
  assigned1 : Option String
deriving DecidableEq

/-- Initial state: `n` sales already persisted, neither request started. -/
def GenState.init (n : Nat) : GenState :=
  { persisted := n, readCount0 := none, readCount1 := none
    assigned0 := none, assigned1 := none }

/-- One storage operation of one of the two concurrent saves. -/
inductive GenEvent where
  | read0
  | read1
  | commit0
  | commit1
deriving DecidableEq

/-- Effect of one operation: a read remembers the current document count;
a commit (only enabled after its own read, once) formats the sale number
from the remembered count and makes the sale durable. -/
def genStep (st : GenState) : GenEvent → GenState
  | .read0 =>
    match st.readCount0 with
    | none => { st with readCount0 := some st.persisted }
    | some _ => st
  | .read1 =>
    match st.readCount1 with
    | none => { st with readCount1 := some st.persisted }
    | some _ => st
  | .commit0 =>
    match st.readCount0, st.assigned0 with
    | some c, none => { st with assigned0 := some (genSaleNumber c), persisted := st.persisted + 1 }
    | _, _ => st
  | .commit1 =>
    match st.readCount1, st.assigned1 with
    | some c, none => { st with assigned1 := some (genSaleNumber c), persisted := st.persisted + 1 }
    | _, _ => st

/-- Run a schedule of interleaved operations. -/
def genRun (st : GenState) (evs : List GenEvent) : GenState :=
  evs.foldl genStep st

/-!
Concrete fixtures used by the per-claim counterexamples and witnesses.
Each claim keeps its own fixtures.
-/

def c1Drug : Drug :=
  { id := 1, name := "Amoxicillin", category := "antibiotic", batchNo := "B1",
    quantity := 5, price := 1, costPrice := 1, expiryDate := 1000, supplier := "S",
    minStockLevel := 10, isActive := true, pharmacy := 10, createdBy := 10 }

def c1DB : DB := { drugs := [c1Drug], sales := [] }

def c1User : User := { id := 10, pharmacy := none }

def c1Req : SaleRequest :=
  { items := [⟨1, 3⟩, ⟨1, 3⟩], paymentMethod := none,
    customerName := none, customerPhone := none }

def c2Drug : Drug :=
  { id := 1, name := "Paracetamol", category := "analgesic", batchNo := "B2",
    quantity := 5, price := 2, costPrice := 1, expiryDate := 1000, supplier := "S",
    minStockLevel := 10, isActive := true, pharmacy := 10, createdBy := 10 }

def c2DB : DB := { drugs := [c2Drug], sales := [] }

def c2User : User := { id := 10, pharmacy := none }

def c2Req : SaleRequest :=
  { items := [⟨1, 6⟩], paymentMethod := none,
    customerName := none, customerPhone := none }

def c3DrugA : Drug :=
  { id := 1, name := "Ibuprofen", category := "analgesic", batchNo := "B3",
    quantity := 5, price := 3, costPrice := 2, expiryDate := 1000, supplier := "S",
    minStockLevel := 10, isActive := true, pharmacy := 10, createdBy := 10 }

def c3DrugB : Drug :=
  { id := 2, name := "Cetirizine", category := "antihistamine", batchNo := "B4",
    quantity := 5, price := 4, costPrice := 2, expiryDate := 1000, supplier := "S",
    minStockLevel := 10, isActive := true, pharmacy := 10, createdBy := 10 }

def c3DB : DB := { drugs := [c3DrugA, c3DrugB], sales := [] }

def c3User : User := { id := 10, pharmacy := none }

def c3Req : SaleRequest :=
  { items := [⟨1, 2⟩, ⟨2, 0⟩], paymentMethod := none,
    customerName := none, customerPhone := none }

def c4Item : SaleItem :=
  { drug := 1, drugName := "Aspirin", batchNo := "B5", category := "analgesic",
    quantity := 2, unitPrice := 3, totalPrice := 6, costPrice := none, profit := 0 }

def c4Sale : Sale :=
  { saleNumber := none, items := [c4Item], totalAmount := 99, totalItems := 7,
    totalCost := none, totalProfit := 0, profitMargin := 0,
    paymentMethod := .cash, customerName := "", customerPhone := "",
    soldBy := 10, status := .completed, pharmacy := some 10 }

def c4DB : DB := { drugs := [], sales := [] }

def c4SaleOut : Sale :=
  { c4Sale with saleNumber := some "SL0001", totalAmount := 6, totalItems := 2 }

def c4DBOut : DB := { drugs := [], sales := [c4SaleOut] }

def c5Drug : Drug :=
  { id := 3, name := "Omeprazole", category := "antacid", batchNo := "B6",
    quantity := 5, price := 10, costPrice := 4, expiryDate := 1000, supplier := "S",
    minStockLevel := 10, isActive := true, pharmacy := 10, createdBy := 10 }

def c5DB : DB := { drugs := [c5Drug], sales := [] }

def c5User : User := { id := 10, pharmacy := none }

def c5Req : SaleRequest :=
  { items := [⟨3, 2⟩], paymentMethod := none,
    customerName := none, customerPhone := none }

def c5SaleOut : Sale :=
  { saleNumber := some "SL0001",
    items := [{ drug := 3, drugName := "Omeprazole", batchNo := "B6", category := "antacid",
                quantity := 2, unitPrice := 10, totalPrice := 20, costPrice := none, profit := 0 }],
    totalAmount := 20, totalItems := 2, totalCost := none, totalProfit := 0, profitMargin := 0,
    paymentMethod := .cash, customerName := "", customerPhone := "",
    soldBy := 10, status := .completed, pharmacy := some 10 }

def c5DBOut : DB :=
  { drugs := [{ c5Drug with quantity := 3 }], sales := [c5SaleOut] }

def c6Prev : Sale :=
  { saleNumber := some "SL0001",
    items := [{ drug := 1, drugName := "Aspirin", batchNo := "B5", category := "analgesic",
                quantity := 1, unitPrice := 3, totalPrice := 3, costPrice := none, profit := 0 }],
    totalAmount := 3, totalItems := 1, totalCost := none, totalProfit := 0, profitMargin := 0,
    paymentMethod := .cash, customerName := "", customerPhone := "",
    soldBy := 10, status := .completed, pharmacy := some 10 }

def c6Sale : Sale :=
  { saleNumber := none,
    items := [{ drug := 1, drugName := "Aspirin", batchNo := "B5", category := "analgesic",
                quantity := 3, unitPrice := 3, totalPrice := 9, costPrice := none, profit := 0 }],
    totalAmount := 9, totalItems := 3, totalCost := none, totalProfit := 0, profitMargin := 0,
    paymentMethod := .card, customerName := "", customerPhone := "",
    soldBy := 10, status := .completed, pharmacy := some 10 }

def c6DB : DB := { drugs := [], sales := [c6Prev] }

def c6SaleOut : Sale := { c6Sale with saleNumber := some "SL0002" }

def c6DBOut : DB := { drugs := [], sales := [c6Prev, c6SaleOut] }

def c8Drug : Drug :=
  { id := 1, name := "Metformin", category := "antidiabetic", batchNo := "B100",
    quantity := 5, price := 2, costPrice := 1, expiryDate := 1000, supplier := "S",
    minStockLevel := 10, isActive := true, pharmacy := 10, createdBy := 10 }

def c8DB : DB := { drugs := [c8Drug], sales := [] }

def c8User : User := { id := 10, pharmacy := none }

def c8Attrs : DrugAttrs :=
  { name := "Metformin", category := "antidiabetic", batchNo := "B100", quantity := 3,
    price := 2, costPrice := none, expiryDate := 2000, supplier := "S",
    minStockLevel := none }

def c9Drug : Drug :=
  { id := 9, name := "Insulin", category := "antidiabetic", batchNo := "B9",
    quantity := 15, price := 30, costPrice := 20, expiryDate := 1000, supplier := "S",
    minStockLevel := 20, isActive := true, pharmacy := 1, createdBy := 1 }

def c10Drug : Drug :=
  { id := 1, name := "Loratadine", category := "antihistamine", batchNo := "B10",
    quantity := 5, price := 2, costPrice := 1, expiryDate := 1000, supplier := "S",
    minStockLevel := 10, isActive := true, pharmacy := 10, createdBy := 10 }

def c10DB : DB := { drugs := [c10Drug], sales := [] }

def c10User : User := { id := 10, pharmacy := none }

/-!
Helper lemmas about the pre-save hook and the validation loop.
-/

theorem hookItemProfit_quantity (it : SaleItem) :
    (hookItemProfit it).quantity = it.quantity := by
  unfold hookItemProfit
  cases hcp : it.costPrice with
  | none => rfl
  | some c =>
    by_cases hc : c = 0
    · simp [hc]
    · simp [hc]

theorem hookItemProfit_totalPrice (it : SaleItem) :
    (hookItemProfit it).totalPrice = it.totalPrice := by
  unfold hookItemProfit
  cases hcp : it.costPrice with
  | none => rfl
  | some c =>
    by_cases hc : c = 0
    · simp [hc]
    · simp [hc]

theorem hookItemProfit_of_costPrice_none (it : SaleItem) (h : it.costPrice = none) :
    hookItemProfit it = it := by
  unfold hookItemProfit
  rw [h]

theorem map_hookItemProfit_totalPrice (l : List SaleItem) :
    (l.map hookItemProfit).map SaleItem.totalPrice = l.map SaleItem.totalPrice := by
  induction l with
  | nil => rfl
  | cons a t ih => simp [hookItemProfit_totalPrice, ih]

theorem map_hookItemProfit_quantity (l : List SaleItem) :
    (l.map hookItemProfit).map SaleItem.quantity = l.map SaleItem.quantity := by
  induction l with
  | nil => rfl
  | cons a t ih => simp [hookItemProfit_quantity, ih]

theorem salePreSave_totalAmount (count : Nat) (s : Sale) :
    (salePreSave count s).totalAmount = (s.items.map SaleItem.totalPrice).sum := by
  simp only [salePreSave]
  split <;> rfl

theorem salePreSave_totalItems (count : Nat) (s : Sale) :
    (salePreSave count s).totalItems = (s.items.map SaleItem.quantity).sum := by
  simp only [salePreSave]
  split <;> rfl

theorem salePreSave_items (count : Nat) (s : Sale) :
    (salePreSave count s).items = s.items.map hookItemProfit := by
  simp only [salePreSave]
  split <;> rfl

theorem salePreSave_saleNumber (count : Nat) (s : Sale) :
    (salePreSave count s).saleNumber =
      (match s.saleNumber with
       | none => some (genSaleNumber count)
       | some n => some n) := by
  simp only [salePreSave]
  split <;> rfl

theorem saveSale_some_inv (db : DB) (s s' : Sale) (db' : DB)
    (h : saveSale db s = some (s', db')) :
    validSale s = true ∧ s' = salePreSave db.sales.length s ∧
      db' = { db with sales := db.sales ++ [s'] } := by
  unfold saveSale at h
  split at h
  case isTrue hv =>
    rw [Option.some.injEq, Prod.mk.injEq] at h
    exact ⟨hv, h.1.symm, by rw [← h.1, ← h.2]⟩
  case isFalse hv =>
    exact absurd h (by simp)

/-- C4: for every persisted Sale record, totalAmount is exactly the sum of
its line items' totalPrice and totalItems exactly the sum of their
quantities, whatever totals the caller supplied: the pre-save hook
recomputes both from the items before the record is written. -/
theorem c4_saved_totals_equal_item_sums (db : DB) (s s' : Sale) (db' : DB)
    (h : saveSale db s = some (s', db')) :
    s'.totalAmount = (s'.items.map SaleItem.totalPrice).sum ∧
    s'.totalItems = (s'.items.map SaleItem.quantity).sum ∧
    db'.sales = db.sales ++ [s'] := by
  obtain ⟨hv, hs, hdb⟩ := saveSale_some_inv db s s' db' h
  subst hs
  refine ⟨?_, ?_, by rw [hdb]⟩
  · rw [salePreSave_totalAmount, salePreSave_items, map_hookItemProfit_totalPrice]
  · rw [salePreSave_totalItems, salePreSave_items, map_hookItemProfit_quantity]

/-- Witness for C4: a caller-supplied sale carrying wrong totals (99 and 7)
is persisted with the recomputed totals 6 and 2. -/
theorem c4_witness :
    c4SaleOut.totalAmount = (c4SaleOut.items.map SaleItem.totalPrice).sum ∧
    c4SaleOut.totalItems = (c4SaleOut.items.map SaleItem.quantity).sum ∧
    c4DBOut.sales = c4DB.sales ++ [c4SaleOut] :=
  c4_saved_totals_equal_item_sums c4DB c4Sale c4SaleOut c4DBOut (by decide)

/-- C6: a saved Sale that carries no sale number is assigned
`SL` + the 4-digit zero-padded (count of already-persisted sales + 1),
and a sale that already carries a number keeps it. -/
theorem c6_sale_number_generation (db : DB) (s s' : Sale) (db' : DB)
    (h : saveSale db s = some (s', db')) :
    (s.saleNumber = none →
      s'.saleNumber = some ("SL" ++ padStart 4 '0' (Nat.repr (db.sales.length + 1)))) ∧
    (∀ n, s.saleNumber = some n → s'.saleNumber = some n) := by
  obtain ⟨hv, hs, hdb⟩ := saveSale_some_inv db s s' db' h
  subst hs
  constructor
  · intro hn
    rw [salePreSave_saleNumber, hn]
    rfl
  · intro n hn
    rw [salePreSave_saleNumber, hn]

/-- Witness for C6: with one sale already persisted, a numberless sale is
saved as SL0002. -/
theorem c6_witness :
    c6SaleOut.saleNumber = some ("SL" ++ padStart 4 '0' (Nat.repr (c6DB.sales.length + 1))) ∧
    "SL" ++ padStart 4 '0' (Nat.repr (c6DB.sales.length + 1)) = "SL0002" :=
  ⟨(c6_sale_number_generation c6DB c6Sale c6SaleOut c6DBOut (by decide)).1 (by decide),
   by decide⟩

/-- C2: when the createSale validation loop fails a line (drug not found
under the caller's pharmacy, or insufficient stock), the handler returns
before any decrement or insert: the whole store is unchanged. -/
theorem c2_validation_failure_leaves_store_unchanged (db : DB) (u : User) (req : SaleRequest)
    (h : (createSale db u req).1.isValidationFailure = true) :
    (createSale db u req).2 = db := by
  obtain ⟨r, db2, hrdb⟩ : ∃ r db2, createSale db u req = (r, db2) := ⟨_, _, rfl⟩
  rw [hrdb] at h ⊢
  unfold createSale at hrdb
  split at hrdb
  · injection hrdb with h1 h2
    subst h1 h2
    simp [SaleResponse.isValidationFailure] at h
  · split at hrdb
    · injection hrdb with h1 h2
      subst h2
      rfl
    · split at hrdb
      · injection hrdb with h1 h2
        subst h1 h2
        simp [SaleResponse.isValidationFailure] at h
      · injection hrdb with h1 h2
        subst h1 h2
        simp [SaleResponse.isValidationFailure] at h

/-- Witness for C2: a request for 6 units of a drug stocked at 5 fails the
stock check and leaves the store exactly as it was. -/
theorem c2_witness :
    (createSale c2DB c2User c2Req).1.isValidationFailure = true ∧
    (createSale c2DB c2User c2Req).2 = c2DB :=
  ⟨by decide, c2_validation_failure_leaves_store_unchanged c2DB c2User c2Req (by decide)⟩

/-- C1: refuting run. A single request whose basket names drug 1 (stock 5)
in two lines of quantity 3 passes validation (each line is checked against
the same un-decremented read), both unconditional `$inc` decrements are
applied, and the sale is created with the drug left at quantity -1 — the
second decrement was applied although only 2 units were on hand, which the
model's own guarded updateStock would have refused. -/
theorem c1_duplicate_line_basket_drives_stock_negative :
    (createSale c1DB c1User c1Req).1.isCreated = true ∧
    (createSale c1DB c1User c1Req).2.drugs.map Drug.quantity = [-1] ∧
    updateStock { c1Drug with quantity := 2 } 3 = none := by
  decide

/-- C3: refuting run. A basket whose second line requests quantity 0 passes
the handler's validation, drug 1 is decremented from 5 to 3, and then the
Sale save is rejected by the schema (quantity min 1): the handler answers
500 with the decrement still applied and no Sale persisted — not
all-or-nothing. -/
theorem c3_save_failure_keeps_decrements_applied :
    (createSale c3DB c3User c3Req).1 = SaleResponse.serverError ∧
    c3DB.drugs.map Drug.quantity = [5, 5] ∧
    (createSale c3DB c3User c3Req).2.drugs.map Drug.quantity = [3, 5] ∧
    (createSale c3DB c3User c3Req).2.sales = [] := by
  decide

/-- C7: refuting run for the count-then-format generation. When both
concurrent saves run their countDocuments read before either insert,
both sales are assigned SL0001; the fully serialized schedule yields the
distinct numbers SL0001 and SL0002. -/
theorem c7_concurrent_count_reads_collide :
    (genRun (GenState.init 0) [.read0, .read1, .commit0, .commit1]).assigned0 = some "SL0001" ∧
    (genRun (GenState.init 0) [.read0, .read1, .commit0, .commit1]).assigned1 = some "SL0001" ∧
    (genRun (GenState.init 0) [.read0, .commit0, .read1, .commit1]).assigned0 = some "SL0001" ∧
    (genRun (GenState.init 0) [.read0, .commit0, .read1, .commit1]).assigned1 = some "SL0002" := by
  decide

/-- C9 counterexample: an active drug of pharmacy 1 with minStockLevel 20
and quantity 15 is low-stock by the spec's own-threshold reading but is
not returned by the source query, which compares against the fixed
literal 10. -/
theorem c9_counterexample_minstock_ignored :
    c9Drug.minStockLevel = 20 ∧ c9Drug.quantity = 15 ∧ c9Drug.isActive = true ∧
    c9Drug.pharmacy = 1 ∧ c9Drug ∈ lowStockPerSpec [c9Drug] 1 ∧
    c9Drug ∉ getLowStock [c9Drug] 1 := by
  decide

/-- C9 (amended): the low-stock query returns exactly the active drugs of
the given pharmacy whose quantity is at most the fixed threshold 10,
regardless of each drug's own minStockLevel; it is a pure filter. -/
theorem c9_amended_low_stock_uses_fixed_threshold (drugs : List Drug) (pid : Nat) (d : Drug) :
    d ∈ getLowStock drugs pid ↔
      d ∈ drugs ∧ d.pharmacy = pid ∧ d.quantity ≤ 10 ∧ d.isActive = true := by
  simp [getLowStock, List.mem_filter, and_assoc]

/-- C10: a basket line with quantity q ≤ 0 passes the stock-sufficiency
check (which only tests drug.quantity < q), the unconditional `$inc`
mutation is applied — for q < 0 it increases the drug's quantity — and
the request is rejected only at persistence time by the Sale schema's
quantity min-1 validator, answering 500 with the mutated stock in place
and no Sale persisted. -/
theorem c10_nonpositive_line_mutates_stock_then_fails (db : DB) (u : User) (d : Drug) (q : Int)
    (hfind : drugFindOne db.drugs (resolvePharmacy u) d.id = some d)
    (hq : q ≤ 0) (hdq : 0 ≤ d.quantity) :
    ¬(d.quantity < q) ∧
    (q < 0 → d.quantity < d.quantity - q) ∧
    createSale db u ⟨[⟨d.id, q⟩], none, none, none⟩ =
      (SaleResponse.serverError, { db with drugs := decrementQuantity db.drugs d.id q }) := by
  have hlt : ¬ d.quantity < q := by omega
  refine ⟨hlt, by omega, ?_⟩
  have hval : validateItems db.drugs (resolvePharmacy u) [⟨d.id, q⟩] = .ok [mkSaleItem d q] := by
    unfold validateItems
    rw [hfind]
    dsimp only
    rw [if_neg hlt]
    rfl
  have hitem : validSaleItem (mkSaleItem d q) = false := by
    have h1 : ¬ (1 : Int) ≤ q := by omega
    simp [validSaleItem, mkSaleItem, h1]
  have hinv : validSale (mkSale u (resolvePharmacy u) ⟨[⟨d.id, q⟩], none, none, none⟩
      [mkSaleItem d q]) = false := by
    simp [validSale, mkSale, hitem]
  have hsave : saveSale { db with drugs := decrementQuantity db.drugs d.id q }
      (mkSale u (resolvePharmacy u) ⟨[⟨d.id, q⟩], none, none, none⟩ [mkSaleItem d q]) = none := by
    simp [saveSale, hinv]
  have happ : applyDecrements db.drugs [(⟨d.id, q⟩ : ReqItem)] =
      decrementQuantity db.drugs d.id q := rfl
  simp [createSale, hval, hsave, happ]

theorem validateItems_error_isValidationFailure (drugs : List Drug) (pid : Nat)
    (l : List ReqItem) :
    ∀ e, validateItems drugs pid l = .error e → e.isValidationFailure = true := by
  induction l with
  | nil =>
    intro e h
    unfold validateItems at h
    cases h
  | cons it rest ih =>
    intro e h
    unfold validateItems at h
    cases hf : drugFindOne drugs pid it.drugId with
    | none =>
      rw [hf] at h
      cases h
      rfl
    | some d =>
      rw [hf] at h
      dsimp only at h
      split at h
      · cases h
        rfl
      · cases hr : validateItems drugs pid rest with
        | error e2 =>
          rw [hr] at h
          cases h
          exact ih _ hr
        | ok tail =>
          rw [hr] at h
          cases h

theorem validateItems_ok_forall₂ (drugs : List Drug) (pid : Nat) (l : List ReqItem) :
    ∀ sis, validateItems drugs pid l = .ok sis →
      List.Forall₂ (fun it si => ∃ d, drugFindOne drugs pid it.drugId = some d ∧
        si = mkSaleItem d it.quantity) l sis := by
  induction l with
  | nil =>
    intro sis h
    unfold validateItems at h
    cases h
    exact List.Forall₂.nil
  | cons it rest ih =>
    intro sis h
    unfold validateItems at h
    cases hf : drugFindOne drugs pid it.drugId with
    | none =>
      rw [hf] at h
      cases h
    | some d =>
      rw [hf] at h
      dsimp only at h
      split at h
      · cases h
      · cases hr : validateItems drugs pid rest with
        | error e2 =>
          rw [hr] at h
          cases h
        | ok tail =>
          rw [hr] at h
          cases h
          exact List.Forall₂.cons ⟨d, hf, rfl⟩ (ih tail hr)

theorem map_hookItemProfit_of_forall₂ {drugs : List Drug} {pid : Nat}
    {l : List ReqItem} {sis : List SaleItem}
    (h : List.Forall₂ (fun it si => ∃ d, drugFindOne drugs pid it.drugId = some d ∧
      si = mkSaleItem d it.quantity) l sis) :
    sis.map hookItemProfit = sis := by
  induction h with
  | nil => rfl
  | cons hab htail ih =>
    obtain ⟨d, _, hb⟩ := hab
    rw [List.map_cons, ih, hookItemProfit_of_costPrice_none _ (by rw [hb]; rfl)]

theorem createSale_created_inv (db : DB) (u : User) (req : SaleRequest) (s : Sale) (db2 : DB)
    (h : createSale db u req = (.created s, db2)) :
    ∃ sis, validateItems db.drugs (resolvePharmacy u) req.items = .ok sis ∧
      s.items = sis.map hookItemProfit := by
  unfold createSale at h
  split at h
  · exact absurd h (by simp)
  · split at h
    case _ e heq =>
      injection h with h1 h2
      have hv := validateItems_error_isValidationFailure db.drugs (resolvePharmacy u)
        req.items e heq
      rw [h1] at hv
      simp [SaleResponse.isValidationFailure] at hv
    case _ sis heq =>
      split at h
      · exact absurd h (by simp)
      case _ s2 db3 heq2 =>
        injection h with h1 h2
        injection h1 with h1
        subst h1
        obtain ⟨hv, hs, hdb⟩ := saveSale_some_inv _ _ _ _ heq2
        refine ⟨sis, heq, ?_⟩
        rw [hs, salePreSave_items]
        rfl

/-- C5 counterexample: selling 2 units of a drug with stored price 10 and
stored cost price 4 creates a sale whose single line carries no costPrice
and profit 0, although the claim requires the recorded line profit
10*2 - 4*2 = 12. -/
theorem c5_counterexample_cost_not_recorded :
    (createSale c5DB c5User c5Req).1.createdSale = some c5SaleOut ∧
    c5SaleOut.items.map SaleItem.costPrice = [none] ∧
    c5SaleOut.items.map SaleItem.profit = [0] ∧
    c5SaleOut.totalCost = none ∧ c5SaleOut.totalProfit = 0 ∧
    c5DB.drugs.map Drug.costPrice = [4] ∧ c5DB.drugs.map Drug.price = [10] ∧
    (10 * 2 - 4 * 2 : Int) ≠ 0 := by
  decide

/-- C5 (amended): every line of a created sale snapshots the Drug's stored
price (unit price = drug.price, line total = drug.price × requested
quantity, never client input), but the handler copies no cost price onto
the line, so line cost is not recorded (costPrice is absent) and line
profit stays at its schema default 0; the pre-save hook computes
cost/profit only for items that do carry a cost price. -/
theorem c5_amended_price_snapshot_but_no_cost (db : DB) (u : User) (req : SaleRequest)
    (s : Sale) (db2 : DB) (h : createSale db u req = (SaleResponse.created s, db2)) :
    List.Forall₂ (fun (it : ReqItem) (si : SaleItem) =>
      ∃ d, drugFindOne db.drugs (resolvePharmacy u) it.drugId = some d ∧
        si.quantity = it.quantity ∧ si.unitPrice = d.price ∧
        si.totalPrice = d.price * it.quantity ∧
        si.costPrice = none ∧ si.profit = 0) req.items s.items := by
  obtain ⟨sis, hok, hitems⟩ := createSale_created_inv db u req s db2 h
  have hf2 := validateItems_ok_forall₂ db.drugs (resolvePharmacy u) req.items sis hok
  rw [hitems, map_hookItemProfit_of_forall₂ hf2]
  refine hf2.imp ?_
  intro a b hab
  obtain ⟨d, hd, hb⟩ := hab
  subst hb
  exact ⟨d, hd, rfl, rfl, rfl, rfl, rfl⟩

/-- Witness for C5: the concrete created sale of the counterexample run
satisfies the amended per-line description. -/
theorem c5_witness :
    List.Forall₂ (fun (it : ReqItem) (si : SaleItem) =>
      ∃ d, drugFindOne c5DB.drugs (resolvePharmacy c5User) it.drugId = some d ∧
        si.quantity = it.quantity ∧ si.unitPrice = d.price ∧
        si.totalPrice = d.price * it.quantity ∧
        si.costPrice = none ∧ si.profit = 0) c5Req.items c5SaleOut.items :=
  c5_amended_price_snapshot_but_no_cost c5DB c5User c5Req c5SaleOut c5DBOut (by decide)

/-- C8: drug creation answers a client error exactly when a drug with the
same trimmed batch number already exists for the caller's pharmacy or the
expiry date is not strictly in the future; on such a failure the store is
unchanged, and otherwise the new record (scoped to the caller's pharmacy,
carrying the trimmed batch number) is appended. A duplicate batch number
under a different pharmacy does not trigger the duplicate error. -/
theorem c8_create_drug_client_error_iff (db : DB) (u : User) (now : Int) (a : DrugAttrs)
    (newId : Nat) :
    ((createDrug db u now a newId).1.isClientError = true ↔
      ((∃ d, d ∈ db.drugs ∧ d.batchNo = strTrim a.batchNo ∧ d.pharmacy = resolvePharmacy u) ∨
        a.expiryDate ≤ now)) ∧
    ((createDrug db u now a newId).1.isClientError = true → (createDrug db u now a newId).2 = db) ∧
    ((createDrug db u now a newId).1.isClientError = false →
      ∃ d, (createDrug db u now a newId).1 = CreateDrugResult.created d ∧
        (createDrug db u now a newId).2.drugs = db.drugs ++ [d] ∧
        d.pharmacy = resolvePharmacy u ∧ d.batchNo = strTrim a.batchNo) := by
  unfold createDrug
  cases hf : db.drugs.find?
      (fun d => d.batchNo == strTrim a.batchNo && d.pharmacy == resolvePharmacy u) with
  | some d =>
    have hp := List.find?_some hf
    have hm := List.mem_of_find?_eq_some hf
    simp only [Bool.and_eq_true, beq_iff_eq] at hp
    refine ⟨⟨fun _ => Or.inl ⟨d, hm, hp.1, hp.2⟩, fun _ => rfl⟩, fun _ => rfl, fun hc => ?_⟩
    simp [CreateDrugResult.isClientError] at hc
  | none =>
    have hno : ¬ ∃ d, d ∈ db.drugs ∧ d.batchNo = strTrim a.batchNo ∧
        d.pharmacy = resolvePharmacy u := by
      rintro ⟨d, hm, hb, hph⟩
      have := List.find?_eq_none.mp hf d hm
      simp [hb, hph] at this
    by_cases hexp : a.expiryDate ≤ now
    · rw [if_pos hexp]
      exact ⟨⟨fun _ => Or.inr hexp, fun _ => rfl⟩, fun _ => rfl, fun hc => by
        simp [CreateDrugResult.isClientError] at hc⟩
    · rw [if_neg hexp]
      refine ⟨⟨fun hc => ?_, fun hor => ?_⟩, fun hc => ?_, fun _ => ?_⟩
      · simp [CreateDrugResult.isClientError] at hc
      · rcases hor with hdup | hle
        · exact absurd hdup hno
        · exact absurd hle hexp
      · simp [CreateDrugResult.isClientError] at hc
      · exact ⟨_, rfl, rfl, rfl, rfl⟩

/-- Witness for C8: re-creating batch B100 under the same pharmacy fails as
a duplicate and leaves the store unchanged, while the same batch number
under a different pharmacy (user 99) is created. -/
theorem c8_witness :
    (createDrug c8DB c8User 1500 c8Attrs 2).1.isClientError = true ∧
    (createDrug c8DB c8User 1500 c8Attrs 2).2 = c8DB ∧
    (createDrug c8DB { id := 99, pharmacy := none } 1500 c8Attrs 2).1.isClientError = false :=
  ⟨by decide,
   (c8_create_drug_client_error_iff c8DB c8User 1500 c8Attrs 2).2.1 (by decide),
   by decide⟩

/-- Witness for C10: requesting quantity -2 of a drug stocked at 5 passes
the check, raises the stock to 7, and ends in a 500. -/
theorem c10_witness :
    ¬(c10Drug.quantity < -2) ∧
    (-2 < (0 : Int) → c10Drug.quantity < c10Drug.quantity - (-2)) ∧
    createSale c10DB c10User ⟨[⟨c10Drug.id, -2⟩], none, none, none⟩ =
      (SaleResponse.serverError,
        { c10DB with drugs := decrementQuantity c10DB.drugs c10Drug.id (-2) }) :=
  c10_nonpositive_line_mutates_stock_then_fails c10DB c10User c10Drug (-2)
    (by decide) (by decide) (by decide)

end Pharmacy
